import Mathlib

/-!
# Verification of the mozichem-ai MCP configuration and chat layer

A shallow embedding of the configuration-normalization, transport-validation,
agent-assembly and chat-shaping logic of the `mozichem_ai` package, together
with theorems settling the specification claims about it.

Python values appearing in MCP configuration entries are modelled by `PyVal`;
a configuration entry (a Python dict of field values) is an association list.
Exceptions are modelled with `Except`: `PyErr` enumerates the Python
exception kinds raised by the embedded code, and `RTError` models the
`RuntimeError` wrapper that `MCPManager` re-raises around any underlying
exception.  Filesystem access and YAML parsing (side effects in the source)
are passed in as explicit function parameters `fs` (path to file contents,
`none` when no file exists at the path) and `parse` (YAML text to parsed
dict, or a parse error).
-/

/-- A Python value that can occur as a field of an MCP configuration entry:
`null`, a string, a list of strings, or a string-to-string dict. -/
inductive PyVal where
  | pynull
  | str (s : String)
  | list (xs : List String)
  | dict (d : List (String × String))
deriving DecidableEq, Repr

/-- One raw MCP configuration entry: a Python dict from field names to values. -/
abbrev Entry := List (String × PyVal)

/-- Python dict lookup on an entry (`d.get(k)` / `d[k]` distinction is made
at each use site). -/
def lookupKey (e : Entry) (k : String) : Option PyVal :=
  match e with
  | [] => none
  | (k1, v) :: rest => if k1 = k then some v else lookupKey rest k

/-- `models/mcp.py` `stdioMCP`: pydantic model for a stdio transport config.
`transport` defaults to the string `stdio`; `command` is optional defaulting
to `None`; `args` defaults to the empty list; `env` defaults to the empty
dict. -/
structure stdioMCP where
  transport : String
  command : Option String
  args : List String
  env : Option (List (String × String))
deriving DecidableEq, Repr

/-- `models/mcp.py` `streamableHttpMCP`: pydantic model for a streamable-HTTP
transport config.  `transport` defaults to the string `streamable_http`;
`url` is required; `env` defaults to the empty dict. -/
structure streamableHttpMCP where
  transport : String
  url : String
  env : Option (List (String × String))
deriving DecidableEq, Repr

/-- Pydantic validation of the `transport : str` field with its default:
an absent field takes the model default, a string is accepted, any other
value is a validation error. -/
def validateTransport (v : Option PyVal) (dflt : String) : Option String :=
  match v with
  | none => some dflt
  | some (.str s) => some s
  | some _ => none

/-- Pydantic validation of `command : Optional[str] = None`. -/
def validateCommand (v : Option PyVal) : Option (Option String) :=
  match v with
  | none => some none
  | some .pynull => some none
  | some (.str s) => some (some s)
  | some _ => none

/-- Pydantic validation of `args : List[str]` with `default_factory=list`. -/
def validateArgs (v : Option PyVal) : Option (List String) :=
  match v with
  | none => some []
  | some (.list xs) => some xs
  | some _ => none

/-- Pydantic validation of `env : Optional[Dict[str, str]]` with
`default_factory=dict`: absent gives the empty dict, `null` is allowed. -/
def validateEnv (v : Option PyVal) : Option (Option (List (String × String))) :=
  match v with
  | none => some (some [])
  | some .pynull => some none
  | some (.dict d) => some (some d)
  | some _ => none

/-- Pydantic validation of the required `url : str` field: an absent or
non-string value is a validation error. -/
def validateUrl (v : Option PyVal) : Option String :=
  match v with
  | some (.str s) => some s
  | _ => none

/-- `stdioMCP(**entry)`: pydantic construction of a `stdioMCP` from a raw
entry, `none` on a validation error.  Unknown fields are ignored (pydantic
default). -/
def stdioMCP.validate (e : Entry) : Option stdioMCP := do
  let t ← validateTransport (lookupKey e "transport") "stdio"
  let c ← validateCommand (lookupKey e "command")
  let a ← validateArgs (lookupKey e "args")
  let v ← validateEnv (lookupKey e "env")
  pure ⟨t, c, a, v⟩

/-- `streamableHttpMCP(**entry)`: pydantic construction of a
`streamableHttpMCP` from a raw entry, `none` on a validation error. -/
def streamableHttpMCP.validate (e : Entry) : Option streamableHttpMCP := do
  let t ← validateTransport (lookupKey e "transport") "streamable_http"
  let u ← validateUrl (lookupKey e "url")
  let v ← validateEnv (lookupKey e "env")
  pure ⟨t, u, v⟩

/-- The Python exception kinds raised by the embedded code. -/
inductive PyErr where
  | keyError (k : String)
  | valueError (msg : String)
  | validationError
  | fileNotFound (p : String)
  | yamlError (msg : String)
  | nameError (ident : String)
  | httpError (code : Int)
deriving DecidableEq, Repr

/-- The `RuntimeError` that `MCPManager` raises, wrapping the underlying
exception as its cause. -/
structure RTError where
  cause : PyErr
deriving DecidableEq, Repr

/-- A validated transport config: the union type
`stdioMCP | streamableHttpMCP` of `MCPManager.config_mcp`. -/
inductive MCPConfig where
  | stdio (c : stdioMCP)
  | streamableHttp (c : streamableHttpMCP)
deriving DecidableEq, Repr

/-- The body of the `config_mcp` loop for one entry
(`mcp_manager.py`, lines 87-94): read `mcp_config['transport']` (a missing
key is a `KeyError`), dispatch on the tag, construct the typed model
(a pydantic failure is a validation error), and raise `ValueError` on any
other tag. -/
def configEntry (e : Entry) : Except PyErr MCPConfig :=
  match lookupKey e "transport" with
  | none => .error (.keyError "transport")
  | some t =>
    if t = .str "stdio" then
      match stdioMCP.validate e with
      | some c => .ok (.stdio c)
      | none => .error .validationError
    else if t = .str "streamable_http" then
      match streamableHttpMCP.validate e with
      | some c => .ok (.streamableHttp c)
      | none => .error .validationError
    else .error (.valueError "Unsupported transport type")

/-- The `config_mcp` loop over all entries, stopping at the first raising
entry, preserving key order. -/
def configEntries (d : List (String × Entry)) : Except PyErr (List (String × MCPConfig)) :=
  match d with
  | [] => .ok []
  | (k, e) :: rest =>
    match configEntry e with
    | .error err => .error err
    | .ok c =>
      match configEntries rest with
      | .error err => .error err
      | .ok cs => .ok ((k, c) :: cs)

/-- The MCP source accepted by `MCPManager.__init__`: `None`, an inline dict,
a `str` path, or a `pathlib.Path`. -/
inductive MCPSource where
  | pynone
  | dict (d : List (String × Entry))
  | str (s : String)
  | path (p : String)
deriving DecidableEq, Repr

/-- Python truthiness test `not self.mcp` on the source: `None`, the empty
dict and the empty string are falsy; a `Path` object is always truthy. -/
def MCPSource.isFalsy : MCPSource → Bool
  | .pynone => true
  | .dict d => d.isEmpty
  | .str s => s.isEmpty
  | .path _ => false

/-- `utils/loader.py` `load_yaml_file`: raise `FileNotFoundError` when no
file exists at the path, otherwise parse it, raising `YAMLError` on a parse
failure. -/
def load_yaml_file (fs : String → Option String)
    (parse : String → Except String (List (String × Entry)))
    (p : String) : Except PyErr (List (String × Entry)) :=
  match fs p with
  | none => .error (.fileNotFound p)
  | some content =>
    match parse content with
    | .error e => .error (.yamlError e)
    | .ok d => .ok d

/-- `MCPManager.config_mcp`: return the empty map for a falsy source; load a
string or `Path` source from YAML; then build the typed map entry by entry.
Any exception is wrapped into a `RuntimeError`. -/
def config_mcp (fs : String → Option String)
    (parse : String → Except String (List (String × Entry)))
    (src : MCPSource) : Except RTError (List (String × MCPConfig)) :=
  if src.isFalsy then .ok []
  else
    let loaded : Except PyErr (List (String × Entry)) :=
      match src with
      | .str p => load_yaml_file fs parse p
      | .path p => load_yaml_file fs parse p
      | .dict d => .ok d
      | .pynone => .ok []
    (loaded.bind configEntries).mapError RTError.mk

/-- The per-entry validation of the `/mcp-config` endpoint
(`api/main.py`, lines 400-409): `value.get("transport")` (no `KeyError`
here, a missing key yields `None`), the same two-way dispatch as
`config_mcp`, and `ValueError` on any unknown tag including a missing
one. -/
def endpointEntry (e : Entry) : Except PyErr MCPConfig :=
  if lookupKey e "transport" = some (.str "stdio") then
    match stdioMCP.validate e with
    | some c => .ok (.stdio c)
    | none => .error .validationError
  else if lookupKey e "transport" = some (.str "streamable_http") then
    match streamableHttpMCP.validate e with
    | some c => .ok (.streamableHttp c)
    | none => .error .validationError
  else .error (.valueError "Unknown transport")

/-- The validation loop of the `/mcp-config` endpoint
(`api/main.py`, lines 398-409), stopping at the first raising entry. -/
def set_mcp_config_validate (d : List (String × Entry)) :
    Except PyErr (List (String × MCPConfig)) :=
  match d with
  | [] => .ok []
  | (k, e) :: rest =>
    match endpointEntry e with
    | .error err => .error err
    | .ok c =>
      match set_mcp_config_validate rest with
      | .error err => .error err
      | .ok cs => .ok ((k, c) :: cs)

/-! ## Agent assembly (`agents/mozichem_agent.py`) -/

/-- A transport config classified as a valid stdio entry by `adapt_mcp`
(lines 158-165): an instance of `stdioMCP` whose `transport` field equals
the string `stdio`. -/
def MCPConfig.isStdioValid : MCPConfig → Bool
  | .stdio c => c.transport = "stdio"
  | .streamableHttp _ => false

/-- A transport config classified as a valid streamable-HTTP entry by
`adapt_mcp` (lines 167-175): an instance of `streamableHttpMCP` whose
`transport` field equals the string `streamable_http`. -/
def MCPConfig.isHttpValid : MCPConfig → Bool
  | .stdio _ => false
  | .streamableHttp c => c.transport = "streamable_http"

/-- The two MCP dicts held by a `MoziChemAgent` after `adapt_mcp`
(the `model_dump`ed per-transport maps). -/
structure AgentMCPState where
  mcp_stdio_dict : List (String × MCPConfig)
  mcp_streamable_http_dict : List (String × MCPConfig)
deriving DecidableEq, Repr

/-- `MoziChemAgent.adapt_mcp`: a falsy source leaves both dicts at their
empty defaults; otherwise the source is normalized by `config_mcp` and the
result split into the stdio and streamable-HTTP dicts. -/
def adapt_mcp (fs : String → Option String)
    (parse : String → Except String (List (String × Entry)))
    (src : MCPSource) : Except RTError AgentMCPState :=
  if src.isFalsy then .ok ⟨[], []⟩
  else
    (config_mcp fs parse src).map fun m =>
      ⟨m.filter (fun p => p.2.isStdioValid),
       m.filter (fun p => p.2.isHttpValid)⟩

/-- The aggregating client of `langchain_mcp_adapters`, holding the
connection map it was constructed from. -/
structure MultiServerMCPClient where
  connections : List (String × MCPConfig)
deriving DecidableEq, Repr

/-- `MoziChemAgent.create_client` exactly as written (lines 184-204): the
client is constructed from the combined map precisely when
`not self.mcp_stdio_dict and not self.mcp_streamable_http_dict` holds, i.e.
when BOTH dicts are empty; otherwise `self.client` is set to `None`. -/
def create_client (st : AgentMCPState) : Option MultiServerMCPClient :=
  if st.mcp_stdio_dict.isEmpty && st.mcp_streamable_http_dict.isEmpty then
    some ⟨st.mcp_stdio_dict ++ st.mcp_streamable_http_dict⟩
  else
    none

/-- The client produced by `MoziChemAgent.__init__` for a given source:
`adapt_mcp` followed by `create_client`. -/
def mozichem_init_client (fs : String → Option String)
    (parse : String → Except String (List (String × Entry)))
    (src : MCPSource) : Except RTError (Option MultiServerMCPClient) :=
  (adapt_mcp fs parse src).map create_client

/-- A tool in the agent's tool list: one of the two built-in tools or a tool
obtained from the MCP client. -/
inductive Tool where
  | multiplyTool
  | addTool
  | mcpTool (name : String)
deriving DecidableEq, Repr

/-- The built-in `multiply` tool (`mozichem_agent.py`, lines 26-29). -/
def multiply (a b : Int) : Int := a * b

/-- The built-in `add` tool (`mozichem_agent.py`, lines 32-35). -/
def add (a b : Int) : Int := a + b

/-- The tool list assembled by `MoziChemAgent.build_agent` (lines 214-224):
when a client exists its tools are fetched and the two built-ins appended;
when no client exists the list is just the two built-ins. -/
def build_agent_tools (client : Option MultiServerMCPClient)
    (get_tools : MultiServerMCPClient → List Tool) : List Tool :=
  match client with
  | some c => get_tools c ++ [.multiplyTool, .addTool]
  | none => [.multiplyTool, .addTool]

/-! ## Chat shaping (`api/main.py` and `utils/message_manager.py`) -/

/-- A LangChain message as the chat layer observes it: an `AIMessage` with
its `usage_metadata` dict (`none` models Python `None`; the two components
are the optional `input_tokens` and `output_tokens` keys of that dict), or a
tool / human / system message. -/
inductive Msg where
  | ai (content : String) (usage : Option (Option Int × Option Int))
  | tool (content : String)
  | human (content : String)
  | system (content : String)
deriving DecidableEq, Repr

/-- The `content` attribute of a message. -/
def Msg.text : Msg → String
  | .ai c _ => c
  | .tool c => c
  | .human c => c
  | .system c => c

/-- Modelled from the spec: the `TokenMetadata` model, declared in
`mozichem_ai.models` but absent from the provided `models/chat.py`
(the package `__init__` imports it from there); it carries the input and
output token counts of the response shaping. -/
structure TokenMetadata where
  input_tokens : Int
  output_tokens : Int
deriving DecidableEq, Repr

/-- `utils/message_manager.py` `message_token_counter`: for an `AIMessage`
the token counts are read from `usage_metadata` with `-1` as the default for
a missing key, and both counts are `-1` when `usage_metadata` is `None`.
For a human or system message `agent_message_analyzer` returns `None` and an
`HTTPException` is raised; for a tool message the local `usage_metadata` is
never assigned (it is only set under `isinstance(message, AIMessage)`), so
reading it raises a `NameError`; either way the outer handler re-raises an
`HTTPException` with status 500. -/
def message_token_counter (m : Msg) : Except PyErr TokenMetadata :=
  match m with
  | .ai _ usage =>
    match usage with
    | some (i, o) => .ok ⟨i.getD (-1), o.getD (-1)⟩
    | none => .ok ⟨-1, -1⟩
  | .tool _ => .error (.httpError 500)
  | .human _ => .error (.httpError 500)
  | .system _ => .error (.httpError 500)

/-- The request body of the `/chat` endpoint: the user's `ChatMessage` with
its `content`, optional `thread_id` and optional `timestamp`. -/
structure ChatRequest where
  content : String
  thread_id : Option String
  timestamp : Option Int
deriving DecidableEq, Repr

/-- The response shape of the `/chat` endpoint.  `role`, `content`,
`messages`, `thread_id` and `response_time` are the fields of `ChatMessage`
in `models/chat.py`; `timestamp`, `input_tokens` and `output_tokens` are
modelled from the spec (the shaped response carries timing and token
counts) and from the endpoint's constructor calls, `models/chat.py` as
provided being incomplete (the package `__init__` imports two further
models from it that the file lacks). -/
structure ChatMessage where
  role : String
  content : String
  messages : List Msg
  thread_id : Option String
  response_time : Option Int
  timestamp : Option Int
  input_tokens : Int
  output_tokens : Int
deriving DecidableEq, Repr

/-- The observable outcome of `agent.ainvoke` inside the `/chat` endpoint:
no agent in `app.state`, the invocation raised, the response was not a dict,
the `messages` key was missing or not a list, or a (possibly empty) message
list was returned. -/
inductive AgentOutcome where
  | noAgent
  | raised (msg : String)
  | notDict
  | noMessagesKey
  | gotMessages (ms : List Msg)
deriving DecidableEq, Repr

/-- The endpoint's thread-id resolution: the Python test `if not thread_id`
treats both `None` and the empty string as absent, replacing them with the
freshly generated id (the UUID `generate_thread` would produce). -/
def resolveThreadId (tid : Option String) (fresh : String) : String :=
  match tid with
  | none => fresh
  | some t => if t = "" then fresh else t

/-- The endpoint's timestamp resolution: `if not timestamp` replaces both an
absent and a zero timestamp with the current time. -/
def resolveTimestamp (ts : Option Int) (nowT : Int) : Int :=
  match ts with
  | none => nowT
  | some t => if t = 0 then nowT else t

/-- `api/main.py` `user_agent_chat` (lines 513-645) as a function of the
request, the freshly generated thread id `fresh`, the clock readings and the
agent outcome.  Every branch returns a `ChatMessage` carrying the resolved
thread id; the success branch reads the last message, its token metadata via
`message_token_counter` (whose exception is caught by the outer handler,
yielding the failure shape), and the measured response time
`endT - startT`. -/
def user_agent_chat (req : ChatRequest) (fresh : String)
    (startT endT nowT : Int) (outcome : AgentOutcome) : ChatMessage :=
  let tid : String := resolveThreadId req.thread_id fresh
  let ts : Int := resolveTimestamp req.timestamp nowT
  match outcome with
  | .noAgent =>
    ⟨"assistant", "MoziChem agent is not created yet.", [],
      some tid, none, some ts, -1, -1⟩
  | .raised msg =>
    ⟨"assistant", "Failed to process user message: " ++ msg, [],
      some tid, none, some ts, -1, -1⟩
  | .notDict =>
    ⟨"assistant", "Agent response is not a valid dictionary.", [],
      some tid, some (endT - startT), some ts, -1, -1⟩
  | .noMessagesKey =>
    ⟨"assistant", "Agent did not return any messages.", [],
      some tid, some (endT - startT), some ts, -1, -1⟩
  | .gotMessages ms =>
    match ms.getLast? with
    | none =>
      ⟨"assistant", "Agent did not return any messages.", [],
        some tid, some (endT - startT), some ts, -1, -1⟩
    | some last =>
      match message_token_counter last with
      | .error _ =>
        ⟨"assistant", "Failed to process user message: token counting failed",
          [], some tid, none, some ts, -1, -1⟩
      | .ok tm =>
        ⟨"assistant", last.text, ms, some tid, some (endT - startT),
          some ts, tm.input_tokens, tm.output_tokens⟩

/-! ## LLM manager (`llms/llm_models.py`) -/

/-- An opaque handle to an initialized chat model. -/
structure ChatModelHandle where
  id : Nat
deriving DecidableEq, Repr

/-- Prefix test on character lists. -/
def charsPrefix : List Char → List Char → Bool
  | [], _ => true
  | _ :: _, [] => false
  | a :: as, b :: bs => a = b && charsPrefix as bs

/-- Substring test on character lists (the Python `in` operator). -/
def charsSub (sub : List Char) : List Char → Bool
  | [] => sub.isEmpty
  | b :: bs => charsPrefix sub (b :: bs) || charsSub sub bs

/-- The Python `sub in s` test on strings. -/
def strContains (s sub : String) : Bool := charsSub sub.data s.data

/-- `LlmManager.ping`: returns `False` when no model is initialized; invokes
the model with the ping messages (`invoke` models `self.model.invoke`,
yielding the response content or an exception); returns `False` when the
invocation raises or the lowercased response content does not contain
`pong`, and `True` otherwise.  No exception escapes. -/
def LlmManager.ping (model : Option ChatModelHandle)
    (invoke : ChatModelHandle → Except String String) : Bool :=
  match model with
  | none => false
  | some m =>
    match invoke m with
    | .error _ => false
    | .ok content => strContains content.toLower "pong"

/-! ## Claim-side predicates and helper lemmas -/

/-- `Except` success test. -/
def exceptOk {ε α : Type} : Except ε α → Bool
  | .ok _ => true
  | .error _ => false

/-- The entry carries a `transport` value other than the two supported tags
(the tag is present but is neither the string `stdio` nor the string
`streamable_http`). -/
def entryOtherTransport (e : Entry) : Bool :=
  match lookupKey e "transport" with
  | none => false
  | some t =>
    if t = PyVal.str "stdio" then false
    else if t = PyVal.str "streamable_http" then false
    else true

/-- The entry fails field validation: the `transport` discriminator is
missing, or the pydantic model selected by its tag rejects the entry. -/
def entryFailsValidation (e : Entry) : Bool :=
  match lookupKey e "transport" with
  | none => true
  | some t =>
    if t = PyVal.str "stdio" then (stdioMCP.validate e).isNone
    else if t = PyVal.str "streamable_http" then (streamableHttpMCP.validate e).isNone
    else false

/-- The entry carries one of the two supported transport tags. -/
def entrySupportedTag (e : Entry) : Bool :=
  match lookupKey e "transport" with
  | none => false
  | some t =>
    if t = PyVal.str "stdio" then true
    else if t = PyVal.str "streamable_http" then true
    else false

theorem configEntry_ok_eq (e : Entry) :
    exceptOk (configEntry e) = !(entryOtherTransport e || entryFailsValidation e) := by
  unfold configEntry entryOtherTransport entryFailsValidation
  cases h : lookupKey e "transport" with
  | none => rfl
  | some t =>
    by_cases h1 : t = PyVal.str "stdio"
    · simp only [h1, if_pos rfl]
      cases hv : stdioMCP.validate e <;> simp [hv, exceptOk]
    · by_cases h2 : t = PyVal.str "streamable_http"
      · simp only [if_neg h1, h2, if_pos rfl]
        cases hv : streamableHttpMCP.validate e <;> simp [hv, exceptOk]
      · simp [if_neg h1, if_neg h2, exceptOk]

theorem configEntries_ok_eq (d : List (String × Entry)) :
    exceptOk (configEntries d)
      = d.all (fun p => !(entryOtherTransport p.2 || entryFailsValidation p.2)) := by
  induction d with
  | nil => rfl
  | cons p rest ih =>
    obtain ⟨k, e⟩ := p
    rw [List.all_cons, ← configEntry_ok_eq, ← ih]
    cases hc : configEntry e with
    | error err => simp [configEntries, exceptOk, hc]
    | ok c =>
      cases hr : configEntries rest with
      | error err => simp [configEntries, exceptOk, hc, hr]
      | ok m => simp [configEntries, exceptOk, hc, hr]

theorem exceptOk_mapError {ε ε' α : Type} (f : ε → ε') (x : Except ε α) :
    exceptOk (x.mapError f) = exceptOk x := by
  cases x <;> rfl

theorem endpointEntry_ok_iff (e : Entry) (c : MCPConfig) :
    endpointEntry e = Except.ok c ↔ configEntry e = Except.ok c := by
  unfold endpointEntry configEntry
  cases ht : lookupKey e "transport" with
  | none => simp
  | some t =>
    by_cases h1 : t = PyVal.str "stdio"
    · subst h1
      simp
    · by_cases h2 : t = PyVal.str "streamable_http"
      · subst h2
        simp
      · simp [h1, h2]

theorem set_mcp_config_validate_ok_iff (d : List (String × Entry))
    (m : List (String × MCPConfig)) :
    set_mcp_config_validate d = Except.ok m ↔ configEntries d = Except.ok m := by
  induction d generalizing m with
  | nil => exact Iff.rfl
  | cons p rest ih =>
    obtain ⟨k, e⟩ := p
    cases hc : configEntry e with
    | error err =>
      cases he : endpointEntry e with
      | error err2 => simp [set_mcp_config_validate, configEntries, hc, he]
      | ok c => exact absurd ((endpointEntry_ok_iff e c).mp he) (by simp [hc])
    | ok c =>
      have he : endpointEntry e = Except.ok c := (endpointEntry_ok_iff e c).mpr hc
      cases hr : configEntries rest with
      | error err =>
        cases hs : set_mcp_config_validate rest with
        | error e2 => simp [set_mcp_config_validate, configEntries, hc, he, hr, hs]
        | ok m2 => exact absurd ((ih m2).mp hs) (by simp [hr])
      | ok m2 =>
        have hs : set_mcp_config_validate rest = Except.ok m2 := (ih m2).mpr hr
        simp [set_mcp_config_validate, configEntries, hc, he, hr, hs]

theorem user_agent_chat_thread_id (req : ChatRequest) (fresh : String)
    (startT endT nowT : Int) (outcome : AgentOutcome) :
    (user_agent_chat req fresh startT endT nowT outcome).thread_id
      = some (resolveThreadId req.thread_id fresh) := by
  unfold user_agent_chat
  cases outcome with
  | noAgent => rfl
  | raised msg => rfl
  | notDict => rfl
  | noMessagesKey => rfl
  | gotMessages ms =>
    cases hl : ms.getLast? with
    | none => simp [hl]
    | some last =>
      cases htm : message_token_counter last with
      | error err => simp [hl, htm]
      | ok tm => simp [hl, htm]

/-! ## Fixed filesystem and parser instances used for concrete evaluations -/

/-- A filesystem with no files. -/
def fsEmpty : String → Option String := fun _ => none

/-- A YAML parser that fails on every input. -/
def parseFail : String → Except String (List (String × Entry)) :=
  fun _ => Except.error "parse error"

/-- A concrete MCP source with one validated stdio transport config. -/
def oneStdioSource : MCPSource :=
  MCPSource.dict
    [("calc", [("transport", PyVal.str "stdio"), ("command", PyVal.str "python")])]

/-! ## Claims -/

/-- C1: the claim states that `MoziChemAgent.__init__` leaves `self.client`
as `None` only when no validated transport config exists, and otherwise
creates the `MultiServerMCPClient` from the union of the two config dicts.
The code does the exact opposite: the guard of `create_client` reads
`not self.mcp_stdio_dict and not self.mcp_streamable_http_dict`, so the
client is built (from an empty union) precisely when BOTH dicts are empty,
and a source yielding a validated config ends with `self.client = None` —
while that very branch logs that no valid MCP configurations were found.
This theorem evaluates the embedded pipeline at the failing input: a source
with one validated stdio config yields no client, and the empty source
yields a client over the empty map. -/
theorem c1_create_client_inverted :
    mozichem_init_client fsEmpty parseFail oneStdioSource = Except.ok none
    ∧ mozichem_init_client fsEmpty parseFail MCPSource.pynone
        = Except.ok (some ⟨[]⟩) := by
  constructor <;> rfl

/-- C6: transport validation enforces the required fields: a
`streamable_http`-tagged entry without a `url` field is rejected, and a
`stdio`-tagged entry omitting `command`, `args` and `env` validates with
the defaults `None`, the empty list and the empty dict. -/
theorem c6_required_fields :
    (∀ e : Entry, lookupKey e "transport" = some (PyVal.str "streamable_http") →
      lookupKey e "url" = none → streamableHttpMCP.validate e = none)
    ∧ (∀ e : Entry, lookupKey e "transport" = some (PyVal.str "stdio") →
      lookupKey e "command" = none → lookupKey e "args" = none →
      lookupKey e "env" = none →
      stdioMCP.validate e = some ⟨"stdio", none, [], some []⟩) := by
  constructor
  · intro e ht hu
    simp [streamableHttpMCP.validate, ht, hu, validateTransport, validateUrl]
  · intro e ht hc ha he
    simp [stdioMCP.validate, ht, hc, ha, he, validateTransport, validateCommand,
      validateArgs, validateEnv]

theorem c6_required_fields_witness :
    streamableHttpMCP.validate
        [("transport", PyVal.str "streamable_http"),
         ("env", PyVal.dict [("A", "1")])] = none
    ∧ stdioMCP.validate [("transport", PyVal.str "stdio")]
        = some ⟨"stdio", none, [], some []⟩ :=
  ⟨c6_required_fields.1 _ rfl rfl, c6_required_fields.2 _ rfl rfl rfl rfl⟩

/-- C8: every empty MCP source — `None`, the empty dict, or the empty
string — normalizes to the empty map without raising, and any source that
makes `config_mcp` raise is non-empty (not Python-falsy). -/
theorem c8_empty_sources :
    ∀ (fs : String → Option String)
      (parse : String → Except String (List (String × Entry))),
      config_mcp fs parse MCPSource.pynone = Except.ok []
      ∧ config_mcp fs parse (MCPSource.dict []) = Except.ok []
      ∧ config_mcp fs parse (MCPSource.str "") = Except.ok []
      ∧ ∀ (src : MCPSource) (err : RTError),
          config_mcp fs parse src = Except.error err → src.isFalsy = false := by
  intro fs parse
  refine ⟨rfl, rfl, rfl, ?_⟩
  intro src err h
  cases hf : src.isFalsy with
  | false => rfl
  | true =>
    simp [config_mcp, hf] at h

theorem c8_empty_sources_witness :
    (MCPSource.path "missing.yml").isFalsy = false :=
  (c8_empty_sources fsEmpty parseFail).2.2.2 (MCPSource.path "missing.yml")
    ⟨PyErr.fileNotFound "missing.yml"⟩ rfl

/-- C9: `build_agent` always puts the built-in `multiply` and `add` tools at
the end of the tool list: after the client's tools when a client exists, and
as the whole list when none does; and the two built-ins compute the product
and the sum of their integer arguments. -/
theorem c9_builtin_tools :
    (∀ (get_tools : MultiServerMCPClient → List Tool) (c : MultiServerMCPClient),
      build_agent_tools (some c) get_tools
        = get_tools c ++ [Tool.multiplyTool, Tool.addTool])
    ∧ (∀ get_tools, build_agent_tools none get_tools
        = [Tool.multiplyTool, Tool.addTool])
    ∧ (∀ a b : Int, multiply a b = a * b ∧ add a b = a + b) :=
  ⟨fun _ _ => rfl, fun _ => rfl, fun _ _ => ⟨rfl, rfl⟩⟩

/-- C10: `LlmManager.ping` is a total Boolean function (no exception
escapes: the embedded invocation's exception is consumed into `false`), and
it returns `true` exactly when a model is initialized, the invocation
succeeds, and the lowercased response content contains the substring
`pong`. -/
theorem c10_ping_characterization :
    ∀ (model : Option ChatModelHandle)
      (invoke : ChatModelHandle → Except String String),
      LlmManager.ping model invoke = true ↔
        ∃ m content, model = some m ∧ invoke m = Except.ok content ∧
          strContains content.toLower "pong" = true := by
  intro model invoke
  cases model with
  | none => simp [LlmManager.ping]
  | some m =>
    cases h : invoke m with
    | error e => simp [LlmManager.ping, h]
    | ok content => simp [LlmManager.ping, h]

theorem exceptOk_eq_true {ε α : Type} (x : Except ε α) (h : exceptOk x = true) :
    ∃ v, x = Except.ok v := by
  cases x with
  | ok v => exact ⟨v, rfl⟩
  | error e => exact absurd h (by simp [exceptOk])

/-- C2: normalization discriminates on the `transport` tag — a `stdio` entry
becomes a `stdioMCP`, a `streamable_http` entry a `streamableHttpMCP` — and
`config_mcp` raises precisely when some entry carries an unsupported
transport value or fails field validation (a missing discriminator counts
as a validation failure: `config_mcp` raises `KeyError`, the endpoint
`ValueError`); the `/mcp-config` endpoint applies the same discrimination,
accepting exactly the same dicts with exactly the same typed result. -/
theorem c2_transport_discrimination :
    (∀ (e : Entry) (c : MCPConfig), configEntry e = Except.ok c →
      (lookupKey e "transport" = some (PyVal.str "stdio") →
        ∃ s, stdioMCP.validate e = some s ∧ c = MCPConfig.stdio s)
      ∧ (lookupKey e "transport" = some (PyVal.str "streamable_http") →
        ∃ s, streamableHttpMCP.validate e = some s ∧ c = MCPConfig.streamableHttp s))
    ∧ (∀ (fs : String → Option String)
        (parse : String → Except String (List (String × Entry)))
        (d : List (String × Entry)),
        exceptOk (config_mcp fs parse (MCPSource.dict d)) = false ↔
          ∃ p ∈ d, entryOtherTransport p.2 = true ∨ entryFailsValidation p.2 = true)
    ∧ (∀ (d : List (String × Entry)) (m : List (String × MCPConfig)),
        set_mcp_config_validate d = Except.ok m ↔ configEntries d = Except.ok m) := by
  refine ⟨?_, ?_, set_mcp_config_validate_ok_iff⟩
  · intro e c h
    constructor
    · intro ht
      rw [configEntry, ht] at h
      simp only [reduceIte] at h
      cases hv : stdioMCP.validate e with
      | none => rw [hv] at h; cases h
      | some s =>
        rw [hv] at h
        cases h
        exact ⟨s, rfl, rfl⟩
    · intro ht
      rw [configEntry, ht] at h
      simp only [reduceIte] at h
      cases hv : streamableHttpMCP.validate e with
      | none => rw [hv] at h; cases h
      | some s =>
        rw [hv] at h
        cases h
        exact ⟨s, rfl, rfl⟩
  · intro fs parse d
    by_cases hd : d = []
    · subst hd
      simp [config_mcp, MCPSource.isFalsy, exceptOk]
    · have hf : (MCPSource.dict d).isFalsy = false := by
        simp [MCPSource.isFalsy, hd]
      have hc : config_mcp fs parse (MCPSource.dict d)
          = (configEntries d).mapError RTError.mk := by
        simp [config_mcp, hf, Except.bind]
      rw [hc, exceptOk_mapError, configEntries_ok_eq]
      simp only [Bool.eq_false_iff, ne_eq, List.all_eq_true, not_forall]
      constructor
      · rintro ⟨p, hp, hnp⟩
        refine ⟨p, hp, ?_⟩
        have : (entryOtherTransport p.2 || entryFailsValidation p.2) = true := by
          cases hb : (entryOtherTransport p.2 || entryFailsValidation p.2) with
          | true => rfl
          | false => exact absurd (by simp [hb]) hnp
        simpa using this
      · rintro ⟨p, hp, hor⟩
        refine ⟨p, hp, ?_⟩
        have : (entryOtherTransport p.2 || entryFailsValidation p.2) = true := by
          cases hor with
          | inl h1 => simp [h1]
          | inr h2 => simp [h2]
        simp [this]

theorem c2_transport_discrimination_witness :
    ∃ s, stdioMCP.validate
        [("transport", PyVal.str "stdio"), ("command", PyVal.str "python")]
          = some s
      ∧ MCPConfig.stdio ⟨"stdio", some "python", [], some []⟩
          = MCPConfig.stdio s :=
  (c2_transport_discrimination.1 _ (MCPConfig.stdio ⟨"stdio", some "python", [], some []⟩)
    (by rfl)).1 (by rfl)

theorem entrySupportedTag_other (e : Entry) (h : entrySupportedTag e = true) :
    entryOtherTransport e = false := by
  unfold entrySupportedTag at h
  unfold entryOtherTransport
  cases ht : lookupKey e "transport" with
  | none => rfl
  | some t =>
    rw [ht] at h
    by_cases h1 : t = PyVal.str "stdio"
    · simp [h1]
    · by_cases h2 : t = PyVal.str "streamable_http"
      · simp [h1, h2]
      · simp [h1, h2] at h

theorem configEntries_ok_of_valid (d : List (String × Entry))
    (h1 : ∀ p ∈ d, entrySupportedTag p.2 = true)
    (h2 : ∀ p ∈ d, entryFailsValidation p.2 = false) :
    ∃ m, configEntries d = Except.ok m
      ∧ List.Forall₂ (fun (p : String × Entry) (q : String × MCPConfig) =>
          p.1 = q.1 ∧ configEntry p.2 = Except.ok q.2) d m := by
  induction d with
  | nil => exact ⟨[], rfl, List.Forall₂.nil⟩
  | cons p rest ih =>
    obtain ⟨k, e⟩ := p
    have hok : exceptOk (configEntry e) = true := by
      rw [configEntry_ok_eq,
        entrySupportedTag_other e (h1 (k, e) (List.mem_cons_self _ _)),
        h2 (k, e) (List.mem_cons_self _ _)]
      rfl
    obtain ⟨c, hc⟩ := exceptOk_eq_true _ hok
    obtain ⟨m, hm, hf⟩ := ih
      (fun q hq => h1 q (List.mem_cons_of_mem _ hq))
      (fun q hq => h2 q (List.mem_cons_of_mem _ hq))
    refine ⟨(k, c) :: m, ?_, List.Forall₂.cons ⟨rfl, hc⟩ hf⟩
    simp [configEntries, hc, hm]

/-- C3 counterexample: a dict whose single entry carries the supported tag
`streamable_http` but omits the required `url` field — every entry carries a
supported transport tag, yet `config_mcp` raises instead of returning a
map. -/
theorem c3_counterexample :
    (List.all [("a", [("transport", PyVal.str "streamable_http")])]
      fun p => entrySupportedTag p.2) = true
    ∧ exceptOk (config_mcp fsEmpty parseFail
        (MCPSource.dict [("a", [("transport", PyVal.str "streamable_http")])]))
      = false := ⟨rfl, rfl⟩

/-- C3 (amended): for every dict source all of whose entries carry a
supported transport tag AND pass field validation, `config_mcp` returns a
map related entry-by-entry to the source: same keys in the same order, each
key mapped to the typed config built from that key's entry; no entry is
dropped, renamed or added. -/
theorem c3_key_preservation :
    ∀ (fs : String → Option String)
      (parse : String → Except String (List (String × Entry)))
      (d : List (String × Entry)),
      (∀ p ∈ d, entrySupportedTag p.2 = true) →
      (∀ p ∈ d, entryFailsValidation p.2 = false) →
      ∃ m, config_mcp fs parse (MCPSource.dict d) = Except.ok m
        ∧ List.Forall₂ (fun (p : String × Entry) (q : String × MCPConfig) =>
            p.1 = q.1 ∧ configEntry p.2 = Except.ok q.2) d m
        ∧ m.map Prod.fst = d.map Prod.fst := by
  intro fs parse d h1 h2
  obtain ⟨m, hm, hf⟩ := configEntries_ok_of_valid d h1 h2
  have hkeys : ∀ (d1 : List (String × Entry)) (m1 : List (String × MCPConfig)),
      List.Forall₂ (fun (p : String × Entry) (q : String × MCPConfig) =>
        p.1 = q.1 ∧ configEntry p.2 = Except.ok q.2) d1 m1 →
      m1.map Prod.fst = d1.map Prod.fst := by
    intro d1 m1 hf1
    induction hf1 with
    | nil => rfl
    | cons hpq hrest ihm => simp [hpq.1, ihm]
  by_cases hd : d = []
  · subst hd
    cases hf
    exact ⟨[], rfl, List.Forall₂.nil, rfl⟩
  · have hfl : (MCPSource.dict d).isFalsy = false := by
      simp [MCPSource.isFalsy, hd]
    refine ⟨m, ?_, hf, hkeys d m hf⟩
    simp [config_mcp, hfl, Except.bind, hm, Except.mapError]

theorem c3_key_preservation_witness :
    ∃ m, config_mcp fsEmpty parseFail (MCPSource.dict
        [("calc", [("transport", PyVal.str "stdio"), ("command", PyVal.str "python")]),
         ("web", [("transport", PyVal.str "streamable_http"), ("url", PyVal.str "http:x")])])
        = Except.ok m
      ∧ List.Forall₂ (fun (p : String × Entry) (q : String × MCPConfig) =>
          p.1 = q.1 ∧ configEntry p.2 = Except.ok q.2)
        [("calc", [("transport", PyVal.str "stdio"), ("command", PyVal.str "python")]),
         ("web", [("transport", PyVal.str "streamable_http"), ("url", PyVal.str "http:x")])] m
      ∧ m.map Prod.fst = ["calc", "web"] :=
  c3_key_preservation fsEmpty parseFail _ (by decide) (by decide)

/-- C4 counterexample: a request whose `thread_id` is set — to the empty
string — does not keep it: the Python test `if not thread_id` also treats
the empty string as absent, so the response carries the freshly generated
identifier instead. -/
theorem c4_counterexample :
    (ChatRequest.mk "hi" (some "") none).thread_id = some ""
    ∧ (user_agent_chat ⟨"hi", some "", none⟩ "3f2a6c1e" 0 1 5
        AgentOutcome.noAgent).thread_id = some "3f2a6c1e" := ⟨rfl, rfl⟩

/-- C4 (amended): for every request whose `thread_id` is set to a NON-EMPTY
string, every response branch of the chat endpoint carries that identifier
unchanged; for every request without a `thread_id` (absent or the empty
string), the freshly generated UUID identifier is returned in the
response. -/
theorem c4_thread_id :
    ∀ (req : ChatRequest) (fresh : String) (startT endT nowT : Int)
      (outcome : AgentOutcome),
      (∀ t, req.thread_id = some t → ¬ t = "" →
        (user_agent_chat req fresh startT endT nowT outcome).thread_id = some t)
      ∧ (req.thread_id = none ∨ req.thread_id = some "" →
        (user_agent_chat req fresh startT endT nowT outcome).thread_id
          = some fresh) := by
  intro req fresh startT endT nowT outcome
  constructor
  · intro t ht hne
    rw [user_agent_chat_thread_id, ht]
    simp [resolveThreadId, hne]
  · intro h
    rw [user_agent_chat_thread_id]
    cases h with
    | inl h0 => rw [h0]; rfl
    | inr h0 => rw [h0]; simp [resolveThreadId]

theorem c4_thread_id_witness :
    (user_agent_chat ⟨"hi", some "t1", none⟩ "fresh0" 0 1 5
        AgentOutcome.notDict).thread_id = some "t1"
    ∧ (user_agent_chat ⟨"hi", none, none⟩ "fresh0" 0 1 5
        AgentOutcome.notDict).thread_id = some "fresh0" :=
  ⟨(c4_thread_id ⟨"hi", some "t1", none⟩ "fresh0" 0 1 5 AgentOutcome.notDict).1
      "t1" rfl (by decide),
   (c4_thread_id ⟨"hi", none, none⟩ "fresh0" 0 1 5 AgentOutcome.notDict).2
      (Or.inl rfl)⟩

/-- C5: for a successful agent invocation — the agent returned a message
dict whose non-empty message list ends with the agent's `AIMessage` reply —
the shaped response carries that last message's content, the measured
response time `endT - startT`, and token counts obtained from the last
message's usage metadata through `message_token_counter`, with `-1` for
both counts when the usage metadata is absent (`None`). -/
theorem c5_success_shape :
    ∀ (req : ChatRequest) (fresh : String) (startT endT nowT : Int)
      (ms : List Msg) (c : String) (usage : Option (Option Int × Option Int)),
      ms.getLast? = some (Msg.ai c usage) →
      ∃ tm, message_token_counter (Msg.ai c usage) = Except.ok tm
        ∧ user_agent_chat req fresh startT endT nowT (AgentOutcome.gotMessages ms)
            = ⟨"assistant", c, ms, some (resolveThreadId req.thread_id fresh),
               some (endT - startT), some (resolveTimestamp req.timestamp nowT),
               tm.input_tokens, tm.output_tokens⟩
        ∧ (usage = none → tm.input_tokens = -1 ∧ tm.output_tokens = -1) := by
  intro req fresh startT endT nowT ms c usage hlast
  cases usage with
  | none =>
    refine ⟨⟨-1, -1⟩, rfl, ?_, fun _ => ⟨rfl, rfl⟩⟩
    simp [user_agent_chat, hlast, message_token_counter, Msg.text]
  | some io =>
    obtain ⟨i, o⟩ := io
    refine ⟨⟨i.getD (-1), o.getD (-1)⟩, rfl, ?_, by simp⟩
    simp [user_agent_chat, hlast, message_token_counter, Msg.text]

theorem c5_success_shape_witness :
    user_agent_chat ⟨"q", some "t1", some 7⟩ "f0" 10 13 99
        (AgentOutcome.gotMessages [Msg.human "q", Msg.ai "hello" none])
      = ⟨"assistant", "hello", [Msg.human "q", Msg.ai "hello" none],
          some "t1", some 3, some 7, -1, -1⟩ := by
  obtain ⟨tm, htm, heq, hdef⟩ :=
    c5_success_shape ⟨"q", some "t1", some 7⟩ "f0" 10 13 99
      [Msg.human "q", Msg.ai "hello" none] "hello" none rfl
  obtain ⟨hi, ho⟩ := hdef rfl
  rw [heq]
  simp [resolveThreadId, resolveTimestamp, hi, ho]

/-- C7 counterexample: the empty-string source names no existing file, yet
`config_mcp` returns the empty map instead of raising — the truthiness
check `if not self.mcp` short-circuits before the YAML loader runs. -/
theorem c7_counterexample :
    fsEmpty "" = none
    ∧ config_mcp fsEmpty parseFail (MCPSource.str "") = Except.ok [] :=
  ⟨rfl, rfl⟩

/-- C7 (amended): for every NON-EMPTY string source and every `Path` source,
normalization loads the YAML file at that path: when no file exists there,
`config_mcp` raises the `RuntimeError` wrapping the `FileNotFoundError`,
and when the file fails YAML parsing, the `RuntimeError` wrapping the
`YAMLError`; only the empty-string source bypasses the loader, yielding the
empty map. -/
theorem c7_path_errors :
    ∀ (fs : String → Option String)
      (parse : String → Except String (List (String × Entry))) (p : String),
      (¬ p = "" → fs p = none →
        config_mcp fs parse (MCPSource.str p)
          = Except.error ⟨PyErr.fileNotFound p⟩)
      ∧ (fs p = none →
        config_mcp fs parse (MCPSource.path p)
          = Except.error ⟨PyErr.fileNotFound p⟩)
      ∧ (∀ content msg, ¬ p = "" → fs p = some content →
        parse content = Except.error msg →
        config_mcp fs parse (MCPSource.str p)
          = Except.error ⟨PyErr.yamlError msg⟩)
      ∧ (∀ content msg, fs p = some content → parse content = Except.error msg →
        config_mcp fs parse (MCPSource.path p)
          = Except.error ⟨PyErr.yamlError msg⟩) := by
  intro fs parse p
  have hpe : ∀ h : ¬ p = "", p.isEmpty = false := by
    intro h
    cases hq : p.isEmpty with
    | false => rfl
    | true => exact absurd ((String.isEmpty_iff p).mp hq) h
  refine ⟨?_, ?_, ?_, ?_⟩
  · intro hne hf
    simp [config_mcp, MCPSource.isFalsy, hpe hne, load_yaml_file, hf,
      Except.bind, Except.mapError]
  · intro hf
    simp [config_mcp, MCPSource.isFalsy, load_yaml_file, hf,
      Except.bind, Except.mapError]
  · intro content msg hne hf hp
    simp [config_mcp, MCPSource.isFalsy, hpe hne, load_yaml_file, hf, hp,
      Except.bind, Except.mapError]
  · intro content msg hf hp
    simp [config_mcp, MCPSource.isFalsy, load_yaml_file, hf, hp,
      Except.bind, Except.mapError]

theorem c7_path_errors_witness :
    config_mcp fsEmpty parseFail (MCPSource.str "servers.yml")
      = Except.error ⟨PyErr.fileNotFound "servers.yml"⟩ :=
  (c7_path_errors fsEmpty parseFail "servers.yml").1 (by decide) rfl
